import Mathlib

/-!
Shallow embedding of the GenerativeValueLearning repository (package `GVL`).

The embedding covers: the Python string and number primitives the code relies
on (split, strip, int, float, list indexing with negative wrap-around), the
response parser of `GeminiVLM.call_VLM` in `src/GVL/src/vlm.py`, the string
prompt assembler `Prompt.format_prompt` in `src/GVL/src/prompt.py`, the
message-list assembler `BaseVLM.prepare_request` and
`ClaudeVLM.create_message_part` in `src/GVL/vlm.py`, and the helpers
`video_to_frames` and `to_base64` in `src/GVL/src/helpers.py`.
-/

/-- Errors raised by the Python primitives the repository relies on: these are
exactly the two exception classes the parser's handler catches. -/
inductive PyErr
| valueError
| indexError
deriving DecidableEq

/-- Whitespace characters removed by Python str.strip with no argument (the
ASCII portion; the sources only ever strip ASCII text). -/
def isPyWs (c : Char) : Bool :=
  c = ' ' || c = '\t' || c = '\n' || c = '\r' || c = '\x0b' || c = '\x0c'

/-- Python str.strip with no argument: drop leading and trailing whitespace. -/
def pyStripWs (l : List Char) : List Char :=
  ((l.dropWhile isPyWs).reverse.dropWhile isPyWs).reverse

/-- Python str.rstrip applied with a percent-sign argument, as in the value
extraction of `call_VLM`: drop trailing percent characters. -/
def pyRstripPct (l : List Char) : List Char :=
  (l.reverse.dropWhile (fun c => c = '%')).reverse

/-- Fuel-indexed worker for Python str.split with a nonempty separator. The
fuel only makes the recursion structural; `pySplit` supplies enough of it. -/
def splitGo (sep : List Char) : Nat → List Char → List Char → List (List Char)
  | 0, s, acc => [acc.reverse ++ s]
  | _ + 1, [], acc => [acc.reverse]
  | fuel + 1, c :: rest, acc =>
    if sep.isPrefixOf (c :: rest) then
      acc.reverse :: splitGo sep fuel ((c :: rest).drop sep.length) []
    else
      splitGo sep fuel rest (c :: acc)

/-- Python str.split with a separator: every occurrence of the separator cuts
the string, and empty pieces are kept. Every separator in the sources is a
fixed nonempty literal. -/
def pySplit (s sep : List Char) : List (List Char) :=
  splitGo sep (s.length + 1) s []

/-- Python list subscription at a nonnegative position: IndexError past the
end. -/
def pyListIndex {β : Type _} (l : List β) (i : Nat) : Except PyErr β :=
  match l.get? i with
  | some x => Except.ok x
  | none => Except.error PyErr.indexError

/-- Python list subscription with a possibly negative index: a negative index
has the length added once, and anything still out of range is an IndexError. -/
def pyIndex {β : Type _} (l : List β) (i : Int) : Except PyErr β :=
  let j : Int := if i < 0 then i + l.length else i
  if 0 ≤ j then pyListIndex l j.toNat else Except.error PyErr.indexError

/-- Numeric value of a decimal digit string, most significant digit first. -/
def natOfDigits (l : List Char) : Nat :=
  l.foldl (fun a c => a * 10 + (c.toNat - 48)) 0

/-- A run of decimal digits: all characters must be digits and at least one
must be present. -/
def parseDigits (l : List Char) : Option Nat :=
  if !l.isEmpty && l.all Char.isDigit then some (natOfDigits l) else none

/-- Python int applied to a string: surrounding whitespace, an optional sign,
then decimal digits. PEP 515 underscores and non-decimal bases are not
modelled; no input in the claims uses them. -/
def pyInt (s : List Char) : Except PyErr Int :=
  match pyStripWs s with
  | '+' :: rest =>
    match parseDigits rest with
    | some n => Except.ok (n : Int)
    | none => Except.error PyErr.valueError
  | '-' :: rest =>
    match parseDigits rest with
    | some n => Except.ok (-(n : Int))
    | none => Except.error PyErr.valueError
  | t =>
    match parseDigits t with
    | some n => Except.ok (n : Int)
    | none => Except.error PyErr.valueError

/-- Exponent suffix of a Python float literal: optional sign then digits. -/
def parseExp (l : List Char) : Option Int :=
  match l with
  | '+' :: r => (parseDigits r).map (fun n => (n : Int))
  | '-' :: r => (parseDigits r).map (fun n => -(n : Int))
  | r => (parseDigits r).map (fun n => (n : Int))

/-- Unsigned body of a Python float literal: integer digits, an optional
fraction after a dot, an optional exponent; at least one mantissa digit. -/
def pyFloatUnsigned (l : List Char) : Option ℚ :=
  let ip := l.takeWhile Char.isDigit
  let r1 := l.dropWhile Char.isDigit
  let fr : Option (List Char × List Char) :=
    match r1 with
    | '.' :: rest => some (rest.takeWhile Char.isDigit, rest.dropWhile Char.isDigit)
    | _ => none
  let fp := match fr with | some p => p.1 | none => []
  let r2 := match fr with | some p => p.2 | none => r1
  if ip.isEmpty && fp.isEmpty then none
  else
    let mant : ℚ := (natOfDigits ip : ℚ) + (natOfDigits fp : ℚ) / ((10 : ℚ) ^ fp.length)
    match r2 with
    | [] => some mant
    | c :: rest =>
      if c = 'e' || c = 'E' then
        match parseExp rest with
        | some e => some (mant * (10 : ℚ) ^ e)
        | none => none
      else none

/-- Python float applied to a string, with exact rational values standing for
the IEEE doubles the code produces; inf, nan and underscores are not
modelled, and no input in the claims uses them. -/
def pyFloat (s : List Char) : Except PyErr ℚ :=
  match pyStripWs s with
  | '+' :: r =>
    match pyFloatUnsigned r with
    | some q => Except.ok q
    | none => Except.error PyErr.valueError
  | '-' :: r =>
    match pyFloatUnsigned r with
    | some q => Except.ok (-q)
    | none => Except.error PyErr.valueError
  | t =>
    match pyFloatUnsigned t with
    | some q => Except.ok q
    | none => Except.error PyErr.valueError

deriving instance DecidableEq for Except

/-- The literal marker phrase the response parser scans each line for. -/
def marker : List Char := ("Task Completion Percentages:").data

/-- The literal description label the response parser splits on. -/
def descLabel : List Char := ("Description:").data

/-- Structured record emitted by `GeminiVLM.call_VLM` in `src/GVL/src/vlm.py`;
`α` stands for the opaque PIL image type. -/
structure VLMOutput (α : Type) where
  frame_no : Int
  frame : α
  description : String
  value : ℚ
deriving DecidableEq

/-- Frame-number extraction of `call_VLM`: int of the text between the first
left bracket and the next right bracket after it. -/
def extractFrameNum (line : List Char) : Except PyErr Int :=
  match pyListIndex (pySplit line ['[']) 1 with
  | Except.error e => Except.error e
  | Except.ok s =>
    match pyListIndex (pySplit s [']']) 0 with
    | Except.error e => Except.error e
    | Except.ok t => pyInt t

/-- Description extraction of `call_VLM`: the stripped text between the
description label and the marker phrase. -/
def extractDescription (line : List Char) : Except PyErr String :=
  match pyListIndex (pySplit line descLabel) 1 with
  | Except.error e => Except.error e
  | Except.ok s =>
    match pyListIndex (pySplit s marker) 0 with
    | Except.error e => Except.error e
    | Except.ok t => Except.ok (String.mk (pyStripWs t))

/-- Value extraction of `call_VLM`: float of the stripped text after the
marker phrase with trailing percent signs removed, divided by 100. -/
def extractValue (line : List Char) : Except PyErr ℚ :=
  match pyListIndex (pySplit line marker) 1 with
  | Except.error e => Except.error e
  | Except.ok s =>
    match pyFloat (pyRstripPct (pyStripWs s)) with
    | Except.error e => Except.error e
    | Except.ok v => Except.ok (v / 100)

/-- Body of the per-line try block of `call_VLM`, in source order: frame
number, description, value, then the inference-frame lookup at the one-based
frame number minus one. -/
def parseLineBody {α : Type} (frames : List α) (line : List Char) :
    Except PyErr (VLMOutput α) :=
  match extractFrameNum line with
  | Except.error e => Except.error e
  | Except.ok fn =>
    match extractDescription line with
    | Except.error e => Except.error e
    | Except.ok d =>
      match extractValue line with
      | Except.error e => Except.error e
      | Except.ok v =>
        match pyIndex frames (fn - 1) with
        | Except.error e => Except.error e
        | Except.ok f => Except.ok ⟨fn, f, d, v⟩

/-- One line of the parsing loop of `call_VLM`: lines without the marker
phrase are ignored, and the except clause turns any ValueError or IndexError
of the body into a silent skip. -/
def parseLine {α : Type} (frames : List α) (line : List Char) :
    Option (VLMOutput α) :=
  if marker <:+: line then
    match parseLineBody frames line with
    | Except.ok r => some r
    | Except.error _ => none
  else none

/-- The full parsing loop of `call_VLM` over a list of response lines. -/
def parseLines {α : Type} (frames : List α) (lines : List (List Char)) :
    List (VLMOutput α) :=
  lines.filterMap (parseLine frames)

/-- State of a `GeminiVLM` instance from `src/GVL/src/vlm.py`: the prompt is
`none` until `format_prompt` has run, and `inference_frames` is whatever
`format_prompt` stored. -/
structure GeminiVLM (α : Type) where
  current_prompt : Option String
  inference_frames : List α

/-- `GeminiVLM.call_VLM`: guard on a falsy current prompt, then the network
call (stood for by `generateContent`) followed by the line-by-line parse of
the response text split on newlines. -/
def GeminiVLM.call_VLM {α : Type} (self : GeminiVLM α)
    (generateContent : String → String) : Except String (List (VLMOutput α)) :=
  match self.current_prompt with
  | none => Except.error ("Prompt must be formatted before calling VLM")
  | some p =>
    if p = "" then Except.error ("Prompt must be formatted before calling VLM")
    else
      Except.ok (parseLines self.inference_frames
        (pySplit (generateContent p).data ['\n']))

/-- First template fragment of `Prompt` in `src/GVL/src/prompt.py`, with the
task description substituted as Python str.format does. -/
def system_and_task_desc_prompt (task_description : String) : String :=
  ("You are an expert robotics engineer and are training an RL model for which you are labelling data.\n        The task you are training the model for is: ") ++
    task_description ++
    (". You need to create ground truth labels for a video of a robot performing the task.\n        You are given multiple frames from a video of a robot performing the task. For each frame, you need to predict the task completion percentage, which represents how close the robot is to completing the task.\n        The task completion percentages are between 0 and 100, where 100 corresponds to full task completion. In the initial robot scene, the task completion percentage is 0.\n        ")

/-- Teacher-examples header template of `Prompt`. -/
def teacher_examples_prompt : String :=
  ("\n        Here are some references of of an ideal success video for the task. Remember, these are ideal cases and progress will be monotonic, but for the inference video, progress might not be monotonic as failure cases can be there.\n        Reference videos:\n        ")

/-- Reminder sentence template of `Prompt`. -/
def teacher_reminder_prompt : String :=
  ("Compare each frame to the corresponding frame(position wise) in the ideal success scenarios and make a judgement on the task completion percentage.")

/-- Inference-video template of `Prompt`, with the task description and the
reminder slot substituted as Python str.format does. -/
def inference_video_prompt (task_description reminder : String) : String :=
  ("\n        Now, for the task of \x27") ++ task_description ++
    ("\x27, output the task completion percentage for each frame. \n        ") ++
    reminder ++
    ("\n        For each frame, format your response as follow: \n        Frame: [i] Description: [Desciption of evaluation of the progress of the robot on the task]: Task Completion Percentages:[]%\n        for example:\n        Frame: [1]  Description: [Desciption of evaluation of the progress of the robot on the task]: Task Completion Percentages:10%\n        Frame: [2] Frame Description: [Desciption of evaluation of the progress of the robot on the task]: Task Completion Percentages:20%\n        ...\n\n        Inference video:\n        ")

/-- Inner loop of the teacher section of `Prompt.format_prompt`: one line per
frame, every line labelled with the same number n, because the source passes
the outer example index here rather than the frame position. -/
def frameLines (n : Nat) : List String → String
  | [] => ""
  | f :: fs => ("    Frame " ++ toString n ++ ": " ++ f ++ "\n") ++ frameLines n fs

/-- Outer loop of the teacher section of `Prompt.format_prompt`: example k
(zero-based) gets a header numbered k+1 and frame lines all labelled k+1. -/
def teacherBlock : Nat → List (List String) → String
  | _, [] => ""
  | k, ex :: rest =>
    ("Reference Video " ++ toString (k + 1) ++ ":\n") ++ frameLines (k + 1) ex ++
      teacherBlock (k + 1) rest

/-- `Prompt.format_prompt` from `src/GVL/src/prompt.py`. The inference_video
argument is accepted and never used, exactly as in the source; the reminder
is substituted into the inference template only when teacher examples are
truthy, and is then appended once more unconditionally at the very end. -/
def Prompt.format_prompt (task_desc : String) (inference_video : List String)
    (teacher_examples : Option (List (List String))) : String :=
  let hasTeacher : Bool :=
    match teacher_examples with
    | none => false
    | some l => !l.isEmpty
  system_and_task_desc_prompt task_desc ++
    (if hasTeacher then teacher_examples_prompt ++ teacherBlock 0 (teacher_examples.getD []) else "") ++
    inference_video_prompt task_desc (if hasTeacher then teacher_reminder_prompt else "") ++
    teacher_reminder_prompt

/-- Introduction template of `PromptComponents` in `src/GVL/vlm.py`, with the
task description substituted. -/
def introduction (task_description : String) : String :=
  ("\nYou are an expert roboticist tasked to predict task completion percentages for frames of a robot for the task of \x27") ++
    task_description ++
    ("\x27. \nThe task completion percentages are between 0 and 100, where 100 corresponds to full task completion. \nIn the initial robot scene, the task completion percentage is 0.\n    ")

/-- Teacher header template of `PromptComponents`, with the video number
substituted. -/
def teacher_header (video_num : Nat) : String :=
  ("\nHere are some references of an ideal success video for the task.\nReference Video ") ++
    toString video_num ++ (":\n    ")

/-- Inference header template of `PromptComponents`, with the task
description substituted. -/
def inference_header (task_description : String) : String :=
  ("\nNow, for the task of \x27") ++ task_description ++
    ("\x27, output the task completion percentage for the following frames. \nCompare each frame to the corrponding frame in the success scenario and provide the task completion percentage for each frame. \nBase your completion percentage based on task completion in comparison to the success scenario.\nFor each frame, format your response as follow:\nFrame: [i] Description: [Description of evaluation of the progress of the robot on the task]: Task Completion Percentages: []%\n    ")

/-- Per-frame part pairs of `BaseVLM.prepare_request`: the label
"Frame: n+1" is appended to the message list as a raw Python string (through
`strVal`, the embedding of putting a bare str in the heterogeneous list) and
is not passed through create_message_part; the frame itself is wrapped by
create_message_part (`cmp`). -/
def framePartsFrom {α γ : Type} (strVal : String → γ) (cmp : String ⊕ α → γ) :
    Nat → List α → List γ
  | _, [] => []
  | n, f :: fs =>
    strVal (("Frame: ") ++ toString (n + 1)) :: cmp (Sum.inr f) ::
      framePartsFrom strVal cmp (n + 1) fs

/-- Teacher-example parts of `BaseVLM.prepare_request`: for example n
(zero-based) a wrapped header numbered n+1 followed by its frame parts. -/
def teacherPartsFrom {α γ : Type} (strVal : String → γ) (cmp : String ⊕ α → γ) :
    Nat → List (List α) → List γ
  | _, [] => []
  | n, ex :: rest =>
    cmp (Sum.inl (teacher_header (n + 1))) ::
      (framePartsFrom strVal cmp 0 ex ++ teacherPartsFrom strVal cmp (n + 1) rest)

/-- `BaseVLM.prepare_request` from `src/GVL/vlm.py`: validate the task
description (stripped) and the inference frame list, then emit the wrapped
introduction, the teacher example parts, the wrapped inference header, and
the inference frame parts. `γ` is the provider's message-part type, `cmp`
its create_message_part, and `strVal` the injection of a raw Python string
into the list. -/
def BaseVLM.prepare_request {α γ : Type} (strVal : String → γ)
    (cmp : String ⊕ α → γ) (task_desc : String) (inference_frames : List α)
    (teacher_examples : Option (List (List α))) : Except String (List γ) :=
  if (pyStripWs task_desc.data).isEmpty then
    Except.error ("Task description cannot be empty")
  else if inference_frames.isEmpty then
    Except.error ("Inference frames cannot be empty")
  else
    Except.ok
      (cmp (Sum.inl (introduction task_desc)) ::
        ((match teacher_examples with
          | none => []
          | some te => teacherPartsFrom strVal cmp 0 te) ++
          (cmp (Sum.inl (inference_header task_desc)) ::
            framePartsFrom strVal cmp 0 inference_frames)))

/-- Modelled from the spec: `GVL/helpers.py` (the `ImageData` type imported
by `src/GVL/vlm.py`) is not among the sources. Per the spec, an Image is an
in-memory decoded picture plus a precomputed base64 encoding; `image`
abstracts the decoded picture and `encoding` is the base64 payload that the
Claude path sends. -/
structure ImageData where
  image : Nat
  encoding : String
deriving DecidableEq

/-- A value sitting in the Claude message list: a raw Python string, or one
of the two typed dict envelopes built by `ClaudeVLM.create_message_part`. -/
inductive ClaudeVal
| str (s : String)
| textPart (s : String)
| imagePart (data : String)
deriving DecidableEq

/-- `ClaudeVLM.create_message_part` from `src/GVL/vlm.py`: a string becomes
the text envelope and an `ImageData` becomes the base64 image envelope. -/
def ClaudeVLM.create_message_part : String ⊕ ImageData → ClaudeVal
  | Sum.inl s => ClaudeVal.textPart s
  | Sum.inr d => ClaudeVal.imagePart d.encoding

/-- numpy linspace over exact rationals: num evenly spaced samples from start
to stop inclusive (endpoint kept, as numpy does by default). -/
def npLinspace (start stop : ℚ) (num : Nat) : List ℚ :=
  if num = 0 then []
  else if num = 1 then [start]
  else (List.range num).map (fun i : Nat => start + (i : ℚ) * (stop - start) / ((num : ℚ) - 1))

/-- C-style cast of a sample position to an integer index: numpy dtype=int on
linspace truncates toward zero. -/
def npTrunc (q : ℚ) : Int :=
  if 0 ≤ q then ⌊q⌋ else -⌊-q⌋

/-- Frame positions computed by `video_to_frames` in `src/GVL/src/helpers.py`:
linspace from 0 to total_frames - 1 with n_frames points, cast to int. -/
def frameIndices (total_frames n_frames : Nat) : List Int :=
  (npLinspace 0 ((total_frames : ℚ) - 1) n_frames).map npTrunc

/-- `video_to_frames` with the cv2 capture abstracted: `decode i` is the
decoded frame at position i, or none when cap.read fails there; failed
positions are silently skipped. -/
def video_to_frames {α : Type} (decode : Int → Option α)
    (total_frames n_frames : Nat) : List α :=
  (frameIndices total_frames n_frames).filterMap decode

/-- Follows the spec's words rather than the source, for comparison with
`frameIndices`: sample positions "rounded to the nearest integer index". -/
def frameIndicesRounded (total_frames n_frames : Nat) : List Int :=
  (npLinspace 0 ((total_frames : ℚ) - 1) n_frames).map (fun q => round q)

/-- The standard base64 alphabet used by base64.b64encode. -/
def b64Chars : List Char :=
  ("ABCDEFGHIJKLMNOPQRSTUVWXYZabcdefghijklmnopqrstuvwxyz0123456789+/").data

/-- Alphabet character of a 6-bit group value. -/
def b64Char (n : Nat) : Char := b64Chars.getD n '='

/-- base64.b64encode on a byte list, with '=' padding. -/
def b64encode : List Nat → List Char
  | [] => []
  | [a] => [b64Char (a / 4), b64Char (a % 4 * 16), '=', '=']
  | [a, b] => [b64Char (a / 4), b64Char (a % 4 * 16 + b / 16), b64Char (b % 16 * 4), '=']
  | a :: b :: c :: rest =>
    b64Char (a / 4) :: b64Char (a % 4 * 16 + b / 16) ::
      b64Char (b % 16 * 4 + c / 64) :: b64Char (c % 64) :: b64encode rest

/-- The inner helper of `to_base64` for one image: save to a buffer in the
given format (PIL's encoder abstracted as `save`), base64 the buffer, and
prefix the data-URI header with the format name lowercased. -/
def single_image_to_base64 {α : Type} (save : α → String → List Nat)
    (format : String) (image : α) : String :=
  ("data:image/" ++ format.toLower ++ ";base64,") ++
    String.mk (b64encode (save image format))

/-- `to_base64` from `src/GVL/src/helpers.py`: a list of images maps the
single-image helper over the list, a single image applies it directly. -/
def to_base64 {α : Type} (save : α → String → List Nat)
    (images : α ⊕ List α) (format : String) : String ⊕ List String :=
  match images with
  | Sum.inr l => Sum.inr (l.map (single_image_to_base64 save format))
  | Sum.inl i => Sum.inl (single_image_to_base64 save format i)

theorem parseLineBody_eq_ok {α : Type} (frames : List α) (line : List Char)
    (fn : Int) (d : String) (v : ℚ) (f : α)
    (h1 : extractFrameNum line = Except.ok fn)
    (h2 : extractDescription line = Except.ok d)
    (h3 : extractValue line = Except.ok v)
    (h4 : pyIndex frames (fn - 1) = Except.ok f) :
    parseLineBody frames line = Except.ok ⟨fn, f, d, v⟩ := by
  unfold parseLineBody
  simp only [h1, h2, h3, h4]

theorem parseLine_eq_some {α : Type} (frames : List α) (line : List Char)
    (fn : Int) (d : String) (v : ℚ) (f : α)
    (hm : marker <:+: line)
    (hb : parseLineBody frames line = Except.ok ⟨fn, f, d, v⟩) :
    parseLine frames line = some ⟨fn, f, d, v⟩ := by
  unfold parseLine
  rw [if_pos hm, hb]


theorem parseLine_none_of_body_error {α : Type} (frames : List α)
    (line : List Char) (e : PyErr)
    (h : parseLineBody frames line = Except.error e) :
    parseLine frames line = none := by
  unfold parseLine
  by_cases hm : marker <:+: line
  · rw [if_pos hm, h]
  · rw [if_neg hm]


theorem pyIndex_error_of_out_of_range {β : Type} (l : List β) (i : Int)
    (h : (l.length : Int) ≤ i ∨ i + l.length < 0) :
    pyIndex l i = Except.error PyErr.indexError := by
  unfold pyIndex
  by_cases hneg : i < 0
  · rw [if_pos hneg]
    have hj : ¬ (0 : Int) ≤ i + l.length := by omega
    rw [if_neg hj]
  · rw [if_neg hneg]
    have h0 : (0 : Int) ≤ i := by omega
    rw [if_pos h0]
    unfold pyListIndex
    have hlen : l.length ≤ i.toNat := by omega
    rw [List.get?_eq_none.mpr hlen]

theorem pyIndex_ok_of_lt {β : Type} (l : List β) (n : Nat) (h : n < l.length) :
    pyIndex l (n : Int) = Except.ok (l.get ⟨n, h⟩) := by
  unfold pyIndex
  have hneg : ¬ ((n : Int) < 0) := by omega
  rw [if_neg hneg]
  have h0 : (0 : Int) ≤ (n : Int) := by omega
  rw [if_pos h0]
  unfold pyListIndex
  rw [Int.toNat_natCast, List.get?_eq_get h]

theorem parseLineBody_error_of_value_error {α : Type} (frames : List α)
    (line : List Char) (e : PyErr)
    (h : extractValue line = Except.error e) :
    ∃ e', parseLineBody frames line = Except.error e' := by
  unfold parseLineBody
  cases h1 : extractFrameNum line with
  | error e1 => exact ⟨e1, rfl⟩
  | ok fn =>
    cases h2 : extractDescription line with
    | error e2 => exact ⟨e2, rfl⟩
    | ok d => simp only [h]; exact ⟨e, rfl⟩

/-- C9: calling `GeminiVLM.call_VLM` while the current prompt is still unset
(that is, before `format_prompt` has run) raises the input-validation
ValueError "Prompt must be formatted before calling VLM", and the result is
the same for every possible model behaviour: no model request is issued. -/
theorem call_VLM_before_format_prompt_errors {α : Type} (self : GeminiVLM α)
    (h : self.current_prompt = none) :
    ∀ generateContent : String → String,
      GeminiVLM.call_VLM self generateContent =
        Except.error ("Prompt must be formatted before calling VLM") := by
  intro g
  unfold GeminiVLM.call_VLM
  rw [h]

/-- C9 witness: a freshly initialised instance, whose prompt is unset,
errors without consulting the model. -/
theorem call_VLM_before_format_prompt_errors_witness :
    GeminiVLM.call_VLM (⟨none, ([] : List Nat)⟩ : GeminiVLM Nat) (fun _ => "") =
      Except.error ("Prompt must be formatted before calling VLM") :=
  call_VLM_before_format_prompt_errors ⟨none, []⟩ rfl (fun _ => "")

/-- C10: `to_base64` on a list of images returns the elementwise map of the
single-image conversion — the output has the same length and its i-th
element is what `to_base64` produces for the i-th image alone — and every
produced string is a data URI whose format name is lowercased. -/
theorem to_base64_maps_and_data_uri {α : Type} (save : α → String → List Nat)
    (format : String) (images : List α) :
    to_base64 save (Sum.inr images) format =
        Sum.inr (images.map (single_image_to_base64 save format)) ∧
      (images.map (single_image_to_base64 save format)).length = images.length ∧
      (∀ i : Nat, (images.map (single_image_to_base64 save format)).get? i =
        (images.get? i).map (single_image_to_base64 save format)) ∧
      (∀ image : α, to_base64 save (Sum.inl image) format =
        Sum.inl (single_image_to_base64 save format image)) ∧
      (∀ image : α, ∃ payload : String,
        single_image_to_base64 save format image =
          ("data:image/" ++ format.toLower ++ ";base64,") ++ payload) := by
  refine ⟨rfl, by simp, ?_, fun _ => rfl, fun image => ⟨_, rfl⟩⟩
  intro i
  simp [List.getElem?_map, List.get?_eq_getElem?]

/-- C8: a response line without the marker phrase yields no record; a
marker line whose percentage text does not parse as a float (such as one
ending in "abc%") yields no record and raises nothing; and a line yielding
no record is simply skipped, parsing continuing with the remaining lines. -/
theorem parse_skips_unmatched_and_bad_lines {α : Type} (frames : List α)
    (line : List Char) :
    (¬ marker <:+: line → parseLine frames line = none) ∧
      (∀ s : List Char, pyListIndex (pySplit line marker) 1 = Except.ok s →
        pyFloat (pyRstripPct (pyStripWs s)) = Except.error PyErr.valueError →
        parseLine frames line = none) ∧
      (pyFloat (pyRstripPct (pyStripWs (("abc%").data))) =
        Except.error PyErr.valueError) ∧
      (parseLine frames line = none →
        ∀ pre post : List (List Char),
          parseLines frames (pre ++ line :: post) =
            parseLines frames pre ++ parseLines frames post) := by
  refine ⟨?_, ?_, rfl, ?_⟩
  · intro hm
    unfold parseLine
    rw [if_neg hm]
  · intro s hs hf
    have hv : extractValue line = Except.error PyErr.valueError := by
      unfold extractValue
      simp only [hs, hf]
    obtain ⟨e', he'⟩ := parseLineBody_error_of_value_error frames line _ hv
    exact parseLine_none_of_body_error frames line e' he'
  · intro h pre post
    unfold parseLines
    rw [List.filterMap_append, List.filterMap_cons_none h]

/-- C8 witness: a concrete line without the marker is skipped, a concrete
marker line with percentage text "abc%" is skipped, and a response holding
only such lines parses to no records while parsing continues past them. -/
theorem parse_skips_unmatched_and_bad_lines_witness :
    parseLine ([3] : List Nat) (("hello world").data) = none ∧
      parseLine ([3] : List Nat)
        (("Frame: [1] Description: [d]: Task Completion Percentages:abc%").data) = none ∧
      parseLines ([3] : List Nat)
        ([("hello world").data] ++
          ("Frame: [1] Description: [d]: Task Completion Percentages:abc%").data ::
            [("also no marker").data]) =
        parseLines ([3] : List Nat) [("hello world").data] ++
          parseLines ([3] : List Nat) [("also no marker").data] := by
  have h1 := (parse_skips_unmatched_and_bad_lines ([3] : List Nat)
    (("hello world").data)).1 (by decide)
  have hbad := (parse_skips_unmatched_and_bad_lines ([3] : List Nat)
    (("Frame: [1] Description: [d]: Task Completion Percentages:abc%").data)).2.1
    (("abc%").data) rfl rfl
  have hcont := (parse_skips_unmatched_and_bad_lines ([3] : List Nat)
    (("Frame: [1] Description: [d]: Task Completion Percentages:abc%").data)).2.2.2
    hbad [("hello world").data] [("also no marker").data]
  exact ⟨h1, hbad, hcont⟩

/-- C1 counterexample: on the claimed response line with two inference frames
stored, the parser does yield exactly one record, but its description is
"[moving arm]:" — the colon standing before the marker phrase is kept by the
split — and not the claimed "[moving arm]". -/
theorem parse_c1_line_description_counterexample :
    (parseLines ([10, 20] : List Nat)
        (pySplit ("Frame: [2] Description: [moving arm]: Task Completion Percentages:45%").data
          ['\n'])).map VLMOutput.description = [("[moving arm]:")] ∧
      (("[moving arm]:") : String) ≠ ("[moving arm]") := by
  constructor
  · with_unfolding_all rfl
  · decide

/-- C1 (amended): on the response line
"Frame: [2] Description: [moving arm]: Task Completion Percentages:45%",
with at least two inference frames stored, the parser yields exactly one
record whose frame_no is 2, whose frame is the second stored frame, whose
value is 9/20 = 0.45, and whose description is "[moving arm]:" (the colon
before the marker phrase included). -/
theorem parse_c1_line_record {α : Type} (frames : List α)
    (h : 2 ≤ frames.length) :
    parseLines frames
        (pySplit ("Frame: [2] Description: [moving arm]: Task Completion Percentages:45%").data
          ['\n']) =
      [⟨2, frames.get ⟨1, by omega⟩, ("[moving arm]:"), 9 / 20⟩] := by
  have hsplit : pySplit ("Frame: [2] Description: [moving arm]: Task Completion Percentages:45%").data
      ['\n'] = [("Frame: [2] Description: [moving arm]: Task Completion Percentages:45%").data] := rfl
  have hidx : pyIndex frames ((2 : Int) - 1) = Except.ok (frames.get ⟨1, by omega⟩) := by
    have h1 : ((2 : Int) - 1) = ((1 : Nat) : Int) := by norm_num
    rw [h1]
    exact pyIndex_ok_of_lt frames 1 (by omega)
  have hbody : parseLineBody frames
      (("Frame: [2] Description: [moving arm]: Task Completion Percentages:45%").data) =
      Except.ok ⟨2, frames.get ⟨1, by omega⟩, ("[moving arm]:"), 9 / 20⟩ :=
    parseLineBody_eq_ok frames _ 2 ("[moving arm]:") (9 / 20) _
      (by with_unfolding_all rfl) rfl (by with_unfolding_all rfl) hidx
  have hline := parseLine_eq_some frames _ 2 ("[moving arm]:") (9 / 20)
    (frames.get ⟨1, by omega⟩) (by decide) hbody
  rw [hsplit]
  unfold parseLines
  rw [List.filterMap_cons_some hline]
  rfl

/-- C1 witness: with the two concrete frames 10 and 20 stored, the line
parses to the single record (2, 20, "[moving arm]:", 9/20). -/
theorem parse_c1_line_record_witness :
    parseLines ([10, 20] : List Nat)
        (pySplit ("Frame: [2] Description: [moving arm]: Task Completion Percentages:45%").data
          ['\n']) =
      [⟨2, 20, ("[moving arm]:"), 9 / 20⟩] :=
  parse_c1_line_record ([10, 20] : List Nat) (by decide)

/-- C2 counterexample: with two inference frames stored and a response line
naming frame 5, the lookup does raise an IndexError inside the try block,
but the per-line except clause catches it: `call_VLM` returns ok with an
empty record list, so no runtime failure propagates to the caller and the
line is gracefully skipped. -/
theorem out_of_range_frame_no_propagated_failure :
    GeminiVLM.call_VLM (⟨some ("p"), ([7, 8] : List Nat)⟩ : GeminiVLM Nat)
        (fun _ => ("Frame: [5] Description: [d]: Task Completion Percentages:50%")) =
      Except.ok [] ∧
      parseLineBody ([7, 8] : List Nat)
        (("Frame: [5] Description: [d]: Task Completion Percentages:50%").data) =
        Except.error PyErr.indexError := by
  constructor
  · with_unfolding_all rfl
  · with_unfolding_all rfl

/-- C2 (amended): for a line whose extracted frame number lies outside both
the stored list and Python's negative wrap-around range, the lookup raises
an IndexError at the point of indexing, the per-line except clause catches
it, and the line is silently skipped — no record, no propagated failure.
(Frame numbers n with -len < n <= 0 instead wrap around Python-style and
produce a record for the wrong frame.) -/
theorem parse_out_of_range_frame_skipped {α : Type} (frames : List α)
    (line : List Char) (fn : Int) (d : String) (v : ℚ)
    (h1 : extractFrameNum line = Except.ok fn)
    (h2 : extractDescription line = Except.ok d)
    (h3 : extractValue line = Except.ok v)
    (h4 : (frames.length : Int) < fn ∨ fn + frames.length ≤ 0) :
    parseLineBody frames line = Except.error PyErr.indexError ∧
      parseLine frames line = none := by
  have hidx : pyIndex frames (fn - 1) = Except.error PyErr.indexError :=
    pyIndex_error_of_out_of_range frames (fn - 1) (by omega)
  have hbody : parseLineBody frames line = Except.error PyErr.indexError := by
    unfold parseLineBody
    simp only [h1, h2, h3, hidx]
  exact ⟨hbody, parseLine_none_of_body_error frames line PyErr.indexError hbody⟩

/-- C2 witness: frame number 5 against the two stored frames 7 and 8 is out
of range, the body raises IndexError, and the line yields no record. -/
theorem parse_out_of_range_frame_skipped_witness :
    parseLineBody ([7, 8] : List Nat)
        (("Frame: [5] Description: [d]: Task Completion Percentages:50%").data) =
        Except.error PyErr.indexError ∧
      parseLine ([7, 8] : List Nat)
        (("Frame: [5] Description: [d]: Task Completion Percentages:50%").data) = none :=
  parse_out_of_range_frame_skipped ([7, 8] : List Nat)
    (("Frame: [5] Description: [d]: Task Completion Percentages:50%").data)
    5 ("[d]:") (1 / 2) rfl rfl (by with_unfolding_all rfl) (by decide)

/-- C3 counterexample: a line whose percentage reads 150% is not skipped:
the parser returns a record for it, and that record's value 3/2 lies
outside [0,1]. -/
theorem out_of_range_percentage_not_skipped :
    parseLines ([7] : List Nat)
        (pySplit ("Frame: [1] Description: [d]: Task Completion Percentages:150%").data
          ['\n']) =
      [⟨1, 7, ("[d]:"), 3 / 2⟩] ∧
      ¬ ((3 : ℚ) / 2 ≤ 1) := by
  constructor
  · with_unfolding_all rfl
  · norm_num

/-- C3 (amended): every record the structured parser returns carries exactly
the parsed percentage divided by 100; no range check is applied, so
percentages outside [0,100] yield records with values outside [0,1] rather
than being skipped. -/
theorem parse_value_is_percentage_over_100 {α : Type} (frames : List α)
    (line : List Char) (r : VLMOutput α)
    (h : parseLine frames line = some r) :
    ∃ s q, pyListIndex (pySplit line marker) 1 = Except.ok s ∧
      pyFloat (pyRstripPct (pyStripWs s)) = Except.ok q ∧
      r.value = q / 100 := by
  unfold parseLine at h
  split at h
  case isFalse => exact absurd h (by simp)
  case isTrue hm =>
    cases hb : parseLineBody frames line with
    | error e => rw [hb] at h; exact absurd h (by simp)
    | ok r' =>
      rw [hb] at h
      have hr : r' = r := by simpa using h
      subst hr
      unfold parseLineBody at hb
      split at hb
      next e1 h1 => exact absurd hb (by simp)
      next fn h1 =>
        split at hb
        next e2 h2 => exact absurd hb (by simp)
        next d h2 =>
          split at hb
          next e3 h3 => exact absurd hb (by simp)
          next v h3 =>
            split at hb
            next e4 h4 => exact absurd hb (by simp)
            next f h4 =>
              have hv : r'.value = v := by
                have hinj := (Except.ok.injEq _ _).mp hb
                rw [← hinj]
              unfold extractValue at h3
              split at h3
              next e5 h5 => exact absurd h3 (by simp)
              next s h5 =>
                split at h3
                next e6 h6 => exact absurd h3 (by simp)
                next q h6 =>
                  refine ⟨s, q, h5, h6, ?_⟩
                  rw [hv]
                  simpa using h3.symm

/-- C3 witness: the 150% line produces the record (1, 7, "[d]:", 3/2), whose
value is the parsed 150 divided by 100. -/
theorem parse_value_is_percentage_over_100_witness :
    ∃ s q, pyListIndex
        (pySplit (("Frame: [1] Description: [d]: Task Completion Percentages:150%").data) marker)
        1 = Except.ok s ∧
      pyFloat (pyRstripPct (pyStripWs s)) = Except.ok q ∧
      ((⟨1, 7, ("[d]:"), 3 / 2⟩ : VLMOutput Nat)).value = q / 100 :=
  parse_value_is_percentage_over_100 ([7] : List Nat)
    (("Frame: [1] Description: [d]: Task Completion Percentages:150%").data)
    ⟨1, 7, ("[d]:"), 3 / 2⟩ (by with_unfolding_all rfl)

theorem frameLines_mem_decomp (n : Nat) (frame : String) (ex : List String)
    (hf : frame ∈ ex) :
    ∃ x y, frameLines n ex =
      x ++ ("    Frame " ++ toString n ++ ": " ++ frame ++ "\n") ++ y := by
  induction ex with
  | nil => cases hf
  | cons f fs ih =>
    rcases List.mem_cons.mp hf with h | h
    · subst h
      refine ⟨"", frameLines n fs, ?_⟩
      simp [frameLines, String.empty_append]
    · obtain ⟨x, y, hxy⟩ := ih h
      refine ⟨("    Frame " ++ toString n ++ ": " ++ f ++ "\n") ++ x, y, ?_⟩
      simp [frameLines, hxy, String.append_assoc]

theorem teacherBlock_mem_decomp (te : List (List String)) (k ix : Nat)
    (ex : List String) (frame : String)
    (hex : te.get? ix = some ex) (hf : frame ∈ ex) :
    ∃ x y, teacherBlock k te =
      x ++ ("    Frame " ++ toString (k + ix + 1) ++ ": " ++ frame ++ "\n") ++ y := by
  induction te generalizing k ix with
  | nil => simp at hex
  | cons e rest ih =>
    cases ix with
    | zero =>
      have he : e = ex := by simpa using hex
      subst he
      obtain ⟨x, y, hxy⟩ := frameLines_mem_decomp (k + 1) frame e hf
      refine ⟨("Reference Video " ++ toString (k + 1) ++ ":\n") ++ x,
        y ++ teacherBlock (k + 1) rest, ?_⟩
      simp only [teacherBlock, hxy, String.append_assoc]
    | succ ix' =>
      have hex' : rest.get? ix' = some ex := by simpa using hex
      obtain ⟨x, y, hxy⟩ := ih (k + 1) ix' hex'
      refine ⟨("Reference Video " ++ toString (k + 1) ++ ":\n") ++
        frameLines (k + 1) e ++ x, y, ?_⟩
      have hnum : k + (ix' + 1) + 1 = k + 1 + ix' + 1 := by omega
      rw [hnum]
      simp only [teacherBlock, hxy, String.append_assoc]

/-- C4: in `Prompt.format_prompt` with teacher examples present, every frame
line within the teacher example at (zero-based) position ix is labelled
"Frame ix+1" — the outer example index plus one, not the frame's own
position — and the reminder sentence is appended unconditionally at the very
end, so it occurs (at least) twice in the output: once inside the inference
header and once at the end. -/
theorem format_prompt_mislabels_and_doubles_reminder (td : String)
    (iv : List String) (te : List (List String)) (ix : Nat) (ex : List String)
    (frame : String) (hex : te.get? ix = some ex) (hf : frame ∈ ex) :
    (∃ x y, Prompt.format_prompt td iv (some te) =
        x ++ ("    Frame " ++ toString (ix + 1) ++ ": " ++ frame ++ "\n") ++ y) ∧
      (∃ z, Prompt.format_prompt td iv (some te) = z ++ teacher_reminder_prompt) ∧
      (∃ x y, Prompt.format_prompt td iv (some te) =
        x ++ teacher_reminder_prompt ++ y ++ teacher_reminder_prompt) := by
  have hne : (!te.isEmpty) = true := by
    cases te
    · simp at hex
    · simp
  have hform : Prompt.format_prompt td iv (some te) =
      system_and_task_desc_prompt td ++
        (teacher_examples_prompt ++ teacherBlock 0 te) ++
        inference_video_prompt td teacher_reminder_prompt ++
        teacher_reminder_prompt := by
    unfold Prompt.format_prompt
    simp only [hne, if_true, Option.getD_some]
  refine ⟨?_, ⟨_, hform⟩, ?_⟩
  · obtain ⟨x, y, hxy⟩ := teacherBlock_mem_decomp te 0 ix ex frame hex hf
    rw [Nat.zero_add] at hxy
    refine ⟨system_and_task_desc_prompt td ++ (teacher_examples_prompt ++ x),
      y ++ inference_video_prompt td teacher_reminder_prompt ++
        teacher_reminder_prompt, ?_⟩
    rw [hform, hxy]
    simp only [String.append_assoc]
  · refine ⟨system_and_task_desc_prompt td ++
      (teacher_examples_prompt ++ teacherBlock 0 te) ++
      (("\n        Now, for the task of \x27") ++ td ++
        ("\x27, output the task completion percentage for each frame. \n        ")),
      ("\n        For each frame, format your response as follow: \n        Frame: [i] Description: [Desciption of evaluation of the progress of the robot on the task]: Task Completion Percentages:[]%\n        for example:\n        Frame: [1]  Description: [Desciption of evaluation of the progress of the robot on the task]: Task Completion Percentages:10%\n        Frame: [2] Frame Description: [Desciption of evaluation of the progress of the robot on the task]: Task Completion Percentages:20%\n        ...\n\n        Inference video:\n        "), ?_⟩
    rw [hform]
    unfold inference_video_prompt
    simp only [String.append_assoc]

/-- C4 witness: with one teacher example holding two frames, both frame
lines carry the example label 1, and the reminder occurs both inside the
inference header and at the very end. -/
theorem format_prompt_mislabels_witness :
    (∃ x y, Prompt.format_prompt ("t") [] (some [[("fa"), ("fb")]]) =
        x ++ ("    Frame " ++ toString 1 ++ ": " ++ ("fb") ++ "\n") ++ y) ∧
      (∃ z, Prompt.format_prompt ("t") [] (some [[("fa"), ("fb")]]) =
        z ++ teacher_reminder_prompt) ∧
      (∃ x y, Prompt.format_prompt ("t") [] (some [[("fa"), ("fb")]]) =
        x ++ teacher_reminder_prompt ++ y ++ teacher_reminder_prompt) :=
  format_prompt_mislabels_and_doubles_reminder ("t") [] [[("fa"), ("fb")]]
    0 [("fa"), ("fb")] ("fb") rfl (by simp)

theorem framePartsFrom_length {α γ : Type} (strVal : String → γ)
    (cmp : String ⊕ α → γ) (n : Nat) (fs : List α) :
    (framePartsFrom strVal cmp n fs).length = 2 * fs.length := by
  induction fs generalizing n with
  | nil => rfl
  | cons f fs ih =>
    simp only [framePartsFrom, List.length_cons, ih]
    omega

theorem teacherPartsFrom_length {α γ : Type} (strVal : String → γ)
    (cmp : String ⊕ α → γ) (n : Nat) (te : List (List α)) :
    (teacherPartsFrom strVal cmp n te).length =
      (te.map (fun ex => 1 + 2 * ex.length)).sum := by
  induction te generalizing n with
  | nil => rfl
  | cons e rest ih =>
    simp only [teacherPartsFrom, List.length_cons, List.length_append,
      framePartsFrom_length, ih, List.map_cons, List.sum_cons]
    omega

/-- C5: `prepare_request` errors when the task description strips to nothing
or the inference frame list is empty; otherwise it returns a message list of
length 1 (introduction) + for each teacher example 1 header + 2 per frame,
+ 1 (inference header) + 2 per inference frame. -/
theorem prepare_request_validates_and_counts {α γ : Type}
    (strVal : String → γ) (cmp : String ⊕ α → γ) (task_desc : String)
    (inference_frames : List α) (teacher_examples : Option (List (List α))) :
    (pyStripWs task_desc.data = [] →
      BaseVLM.prepare_request strVal cmp task_desc inference_frames teacher_examples =
        Except.error ("Task description cannot be empty")) ∧
      (pyStripWs task_desc.data ≠ [] → inference_frames = [] →
        BaseVLM.prepare_request strVal cmp task_desc inference_frames teacher_examples =
          Except.error ("Inference frames cannot be empty")) ∧
      (pyStripWs task_desc.data ≠ [] → inference_frames ≠ [] →
        ∃ l, BaseVLM.prepare_request strVal cmp task_desc inference_frames teacher_examples =
            Except.ok l ∧
          l.length = 1 +
            ((teacher_examples.getD []).map (fun ex => 1 + 2 * ex.length)).sum +
            1 + 2 * inference_frames.length) := by
  unfold BaseVLM.prepare_request
  refine ⟨?_, ?_, ?_⟩
  · intro h
    rw [if_pos (by simp [h])]
  · intro h1 h2
    rw [if_neg (by simp [List.isEmpty_iff, h1]), if_pos (by simp [h2])]
  · intro h1 h2
    rw [if_neg (by simp [List.isEmpty_iff, h1]), if_neg (by simp [List.isEmpty_iff, h2])]
    refine ⟨_, rfl, ?_⟩
    rcases teacher_examples with _ | te
    · simp only [List.length_cons, List.length_append, framePartsFrom_length,
        Option.getD_none, List.map_nil, List.sum_nil, List.length_nil]
      omega
    · simp only [List.length_cons, List.length_append, framePartsFrom_length,
        teacherPartsFrom_length, Option.getD_some]
      omega

/-- C5 witness: a one-word task, one inference frame, and one teacher example
with two frames give a message list of length 1 + (1 + 4) + 1 + 2 = 9. -/
theorem prepare_request_validates_and_counts_witness :
    ∃ l, BaseVLM.prepare_request (fun s => s) (fun _ => ("x"))
        ("t") ([1] : List Nat) (some [[2, 3]]) = Except.ok l ∧
      l.length = 1 +
        (((some [[2, 3]] : Option (List (List Nat))).getD []).map
          (fun ex => 1 + 2 * ex.length)).sum +
        1 + 2 * ([1] : List Nat).length :=
  (prepare_request_validates_and_counts (fun s => s) (fun _ => ("x"))
    ("t") ([1] : List Nat) (some [[2, 3]])).2.2 (by decide) (by simp)

theorem claude_cmp_never_raw (c : String ⊕ ImageData) (s : String) :
    ClaudeVLM.create_message_part c ≠ ClaudeVal.str s := by
  cases c <;> simp [ClaudeVLM.create_message_part]

theorem framePartsFrom_claude_forms (n : Nat) (fs : List ImageData) :
    ∀ x ∈ framePartsFrom ClaudeVal.str ClaudeVLM.create_message_part n fs,
      (∃ m : Nat, x = ClaudeVal.str (("Frame: ") ++ toString m)) ∨
        (∃ d, x = ClaudeVal.imagePart d) := by
  induction fs generalizing n with
  | nil => simp [framePartsFrom]
  | cons f fs ih =>
    intro x hx
    simp only [framePartsFrom, List.mem_cons] at hx
    rcases hx with h | h | h
    · exact Or.inl ⟨n + 1, h⟩
    · exact Or.inr ⟨f.encoding, by simp [h, ClaudeVLM.create_message_part]⟩
    · exact ih (n + 1) x h

theorem teacherPartsFrom_claude_forms (n : Nat) (te : List (List ImageData)) :
    ∀ x ∈ teacherPartsFrom ClaudeVal.str ClaudeVLM.create_message_part n te,
      (∃ m : Nat, x = ClaudeVal.str (("Frame: ") ++ toString m)) ∨
        (∃ s, x = ClaudeVal.textPart s) ∨ (∃ d, x = ClaudeVal.imagePart d) := by
  induction te generalizing n with
  | nil => simp [teacherPartsFrom]
  | cons e rest ih =>
    intro x hx
    simp only [teacherPartsFrom, List.mem_cons, List.mem_append] at hx
    rcases hx with h | h | h
    · exact Or.inr (Or.inl ⟨teacher_header (n + 1), by simp [h, ClaudeVLM.create_message_part]⟩)
    · rcases framePartsFrom_claude_forms 0 e x h with h' | h'
      · exact Or.inl h'
      · exact Or.inr (Or.inr h')
    · exact ih (n + 1) x h

/-- C7: in `prepare_request` the per-frame labels "Frame: n" are appended as
raw strings, never passed through create_message_part; with Claude's
create_message_part — which wraps every input in a typed envelope and never
yields a raw string — the returned list therefore mixes unwrapped raw label
strings with wrapped text parts and wrapped image parts. -/
theorem prepare_request_claude_mixes_raw_labels (task_desc : String)
    (inference_frames : List ImageData)
    (teacher_examples : Option (List (List ImageData)))
    (h1 : pyStripWs task_desc.data ≠ []) (h2 : inference_frames ≠ []) :
    ∃ l, BaseVLM.prepare_request ClaudeVal.str ClaudeVLM.create_message_part
        task_desc inference_frames teacher_examples = Except.ok l ∧
      (∀ c : String ⊕ ImageData, ∀ s : String,
        ClaudeVLM.create_message_part c ≠ ClaudeVal.str s) ∧
      (∀ x ∈ l, (∃ m : Nat, x = ClaudeVal.str (("Frame: ") ++ toString m)) ∨
        (∃ s, x = ClaudeVal.textPart s) ∨ (∃ d, x = ClaudeVal.imagePart d)) ∧
      ClaudeVal.str (("Frame: ") ++ toString 1) ∈ l ∧
      (∃ s, ClaudeVal.textPart s ∈ l) ∧
      (∃ d, ClaudeVal.imagePart d ∈ l) := by
  rcases inference_frames with _ | ⟨f, fs⟩
  · exact absurd rfl h2
  unfold BaseVLM.prepare_request
  rw [if_neg (by simp [List.isEmpty_iff, h1]), if_neg (by simp)]
  refine ⟨_, rfl, claude_cmp_never_raw, ?_, ?_, ?_, ?_⟩
  · intro x hx
    simp only [List.mem_cons, List.mem_append] at hx
    rcases hx with h | h | h | h
    · exact Or.inr (Or.inl ⟨introduction task_desc, by simp [h, ClaudeVLM.create_message_part]⟩)
    · rcases teacher_examples with _ | te
      · simp at h
      · exact teacherPartsFrom_claude_forms 0 te x h
    · exact Or.inr (Or.inl ⟨inference_header task_desc, by simp [h, ClaudeVLM.create_message_part]⟩)
    · rcases framePartsFrom_claude_forms 0 (f :: fs) x h with h' | h'
      · exact Or.inl h'
      · exact Or.inr (Or.inr h')
  · simp [framePartsFrom, List.mem_cons, List.mem_append]
  · exact ⟨introduction task_desc, by simp [ClaudeVLM.create_message_part]⟩
  · refine ⟨f.encoding, ?_⟩
    simp [framePartsFrom, List.mem_cons, List.mem_append, ClaudeVLM.create_message_part]

/-- C7 witness: with one inference frame and no teacher examples, the Claude
message list holds the raw label string "Frame: 1" alongside wrapped text
and image envelopes. -/
theorem prepare_request_claude_mixes_raw_labels_witness :
    ∃ l, BaseVLM.prepare_request ClaudeVal.str ClaudeVLM.create_message_part
        ("t") [(⟨0, ("enc")⟩ : ImageData)] none = Except.ok l ∧
      (∀ c : String ⊕ ImageData, ∀ s : String,
        ClaudeVLM.create_message_part c ≠ ClaudeVal.str s) ∧
      (∀ x ∈ l, (∃ m : Nat, x = ClaudeVal.str (("Frame: ") ++ toString m)) ∨
        (∃ s, x = ClaudeVal.textPart s) ∨ (∃ d, x = ClaudeVal.imagePart d)) ∧
      ClaudeVal.str (("Frame: ") ++ toString 1) ∈ l ∧
      (∃ s, ClaudeVal.textPart s ∈ l) ∧
      (∃ d, ClaudeVal.imagePart d ∈ l) :=
  prepare_request_claude_mixes_raw_labels ("t") [⟨0, ("enc")⟩] none
    (by decide) (by simp)

/-- C6 counterexample: for a video of 11 frames and 4 samples the code casts
the linspace positions to int, truncating toward zero, giving [0, 3, 6, 10];
rounding to the nearest integer index, as the claim states, would give
[0, 3, 7, 10] (position 20/3 = 6.67 truncates to 6 but rounds to 7). -/
theorem sampler_truncates_not_rounds :
    frameIndices 11 4 = [0, 3, 6, 10] ∧
      frameIndicesRounded 11 4 = [0, 3, 7, 10] ∧
      ([0, 3, 6, 10] : List Int) ≠ [0, 3, 7, 10] := by
  refine ⟨by with_unfolding_all rfl, by with_unfolding_all rfl, by decide⟩

theorem npTrunc_eq_floor (q : ℚ) (h : 0 ≤ q) : npTrunc q = ⌊q⌋ := by
  unfold npTrunc
  rw [if_pos h]

theorem floor_lt_floor_of_add_one_le {a b : ℚ} (h : a + 1 ≤ b) : ⌊a⌋ < ⌊b⌋ := by
  have h1 : ⌊a + 1⌋ ≤ ⌊b⌋ := Int.floor_mono h
  rw [Int.floor_add_one] at h1
  omega

/-- C6 (amended): the sampler computes its positions by linear spacing from
index 0 to index F-1 with n points cast to int — truncation toward zero, not
rounding to nearest — and, for 2 ≤ n ≤ F, produces exactly n positions that
are strictly increasing, starting exactly at 0 and ending exactly at F-1;
the frames returned are at most n, since failed decodes are dropped. -/
theorem sampler_positions_spec {α : Type} (decode : Int → Option α)
    (F n : Nat) (h2 : 2 ≤ n) (hF : n ≤ F) :
    frameIndices F n = (npLinspace 0 ((F : ℚ) - 1) n).map npTrunc ∧
      (video_to_frames decode F n).length ≤ n ∧
      (frameIndices F n).length = n ∧
      List.Chain' (· < ·) (frameIndices F n) ∧
      (frameIndices F n).get? 0 = some 0 ∧
      (frameIndices F n).get? (n - 1) = some ((F : Int) - 1) := by
  have hn0 : n ≠ 0 := by omega
  have hn1 : n ≠ 1 := by omega
  have hnpos : (0 : ℚ) < (n : ℚ) - 1 := by
    have hcast : (2 : ℚ) ≤ (n : ℚ) := by exact_mod_cast h2
    linarith
  have hFq : ((n : ℚ) - 1) ≤ (F : ℚ) - 1 := by
    have hcast : (n : ℚ) ≤ (F : ℚ) := by exact_mod_cast hF
    linarith
  have hF0 : (0 : ℚ) ≤ (F : ℚ) - 1 := by linarith
  have hlin : npLinspace 0 ((F : ℚ) - 1) n =
      (List.range n).map (fun i : Nat => 0 + (i : ℚ) * (((F : ℚ) - 1) - 0) / ((n : ℚ) - 1)) := by
    unfold npLinspace
    rw [if_neg hn0, if_neg hn1]
  have hgsimp : ∀ i : Nat, 0 + (i : ℚ) * (((F : ℚ) - 1) - 0) / ((n : ℚ) - 1) =
      (i : ℚ) * ((F : ℚ) - 1) / ((n : ℚ) - 1) := by
    intro i; ring
  have hgnonneg : ∀ i : Nat, 0 ≤ 0 + (i : ℚ) * (((F : ℚ) - 1) - 0) / ((n : ℚ) - 1) := by
    intro i
    rw [hgsimp]
    exact div_nonneg (mul_nonneg (by positivity) hF0) (le_of_lt hnpos)
  have hfr : frameIndices F n =
      (List.range n).map
        (fun i : Nat => npTrunc (0 + (i : ℚ) * (((F : ℚ) - 1) - 0) / ((n : ℚ) - 1))) := by
    unfold frameIndices
    rw [hlin, List.map_map]
    rfl
  have hlen : (frameIndices F n).length = n := by
    rw [hfr]
    simp
  refine ⟨rfl, ?_, hlen, ?_, ?_, ?_⟩
  · calc (video_to_frames decode F n).length
        ≤ (frameIndices F n).length := List.length_filterMap_le _ _
      _ = n := hlen
  · rw [hfr, List.chain'_map]
    obtain ⟨m, rfl⟩ : ∃ m, n = m + 1 := ⟨n - 1, by omega⟩
    rw [List.chain'_range_succ]
    intro i hi
    rw [npTrunc_eq_floor _ (hgnonneg i), npTrunc_eq_floor _ (hgnonneg (i + 1))]
    apply floor_lt_floor_of_add_one_le
    rw [hgsimp, hgsimp]
    have hdiv : 1 ≤ ((F : ℚ) - 1) / (((m : ℚ) + 1) - 1) := by
      rw [one_le_div (by push_cast at hnpos ⊢; linarith)]
      push_cast at hFq ⊢
      linarith
    have hexp : ((i : ℚ) + 1) * ((F : ℚ) - 1) / (((m + 1 : Nat) : ℚ) - 1) =
        (i : ℚ) * ((F : ℚ) - 1) / (((m + 1 : Nat) : ℚ) - 1) +
          ((F : ℚ) - 1) / (((m + 1 : Nat) : ℚ) - 1) := by
      ring
    push_cast
    push_cast at hexp
    rw [hexp]
    push_cast at hdiv
    linarith
  · rw [hfr]
    have h0n : 0 < n := by omega
    rw [List.get?_eq_getElem?]
    simp only [List.getElem?_map, List.getElem?_range, h0n, if_pos, Option.map_some']
    have hz : (0 : ℚ) + ((0 : Nat) : ℚ) * (((F : ℚ) - 1) - 0) / ((n : ℚ) - 1) = 0 := by
      push_cast
      ring
    rw [hz]
    rw [npTrunc_eq_floor _ le_rfl]
    simp
  · rw [hfr]
    have hlt : n - 1 < n := by omega
    rw [List.get?_eq_getElem?]
    simp only [List.getElem?_map, List.getElem?_range, hlt, if_pos, Option.map_some']
    have hcast : ((n - 1 : Nat) : ℚ) = (n : ℚ) - 1 := by
      push_cast [Nat.cast_sub (by omega : 1 ≤ n)]
      ring
    have hval : (0 : ℚ) + ((n - 1 : Nat) : ℚ) * (((F : ℚ) - 1) - 0) / ((n : ℚ) - 1) =
        (F : ℚ) - 1 := by
      rw [hcast, zero_add, sub_zero]
      exact mul_div_cancel_left₀ _ (ne_of_gt hnpos)
    rw [hval, npTrunc_eq_floor _ hF0]
    have hFcast : (F : ℚ) - 1 = (((F : Int) - 1 : Int) : ℚ) := by push_cast; ring
    rw [hFcast, Int.floor_intCast]

/-- C6 witness: for a video of 11 frames and 4 requested samples, with every
decode succeeding, the positions are exactly 4, strictly increasing, from 0
to 10. -/
theorem sampler_positions_spec_witness :
    frameIndices 11 4 = (npLinspace 0 ((11 : ℚ) - 1) 4).map npTrunc ∧
      (video_to_frames (fun _ => some (0 : Nat)) 11 4).length ≤ 4 ∧
      (frameIndices 11 4).length = 4 ∧
      List.Chain' (· < ·) (frameIndices 11 4) ∧
      (frameIndices 11 4).get? 0 = some 0 ∧
      (frameIndices 11 4).get? (4 - 1) = some ((11 : Int) - 1) :=
  sampler_positions_spec (fun _ => some (0 : Nat)) 11 4 (by omega) (by omega)
